import Mathlib

/-!
Shallow embedding of the Express/MySQL backend of the unio website
(news, messages, memberships, page-content and media routes), together
with proofs checking the specification's claims against it.

Conventions of the embedding:
* each database table is a `List` of records plus a `nextId` counter
  standing for `AUTO_INCREMENT`;
* `CURRENT_TIMESTAMP` is an explicit `now : Nat` parameter;
* a JSON body field that may be absent (`undefined` in the handler) is an
  `Option`; JavaScript truthiness tests (`!x`, `x || d`) on strings are
  `= ""` tests and on numbers `= 0` tests, matching the handlers;
* every handler returns a result value (carrying the HTTP payload) paired
  with the updated store; the HTTP status code of each result is given by
  a `status` function mirroring the `res.status(...)` calls;
* the `isAuthenticated` middleware (src/backend/middleware/auth.js) is a
  boolean `auth` parameter: `req.session && req.session.adminId` present.
-/

/-- One row of the `page_content` table (src/backend/models/database.js). -/
structure PageSection where
  id : Nat
  page_name : String
  section_id : String
  section_title : String
  content : String
  content_type : String
  display_order : Int
  updated_at : Nat
  deriving Repr, DecidableEq

/-- The `page_content` table with its `AUTO_INCREMENT` counter. -/
structure PagesDb where
  rows : List PageSection
  nextId : Nat
  deriving Repr, DecidableEq

/-- Results of the pages handlers (src/backend/routes/pages.js), one
constructor per distinct response shape. -/
inductive PagesResult where
  | unauthorized
  | invalidInput
  | conflict
  | notFound
  | okSection (s : PageSection)
  | created (s : PageSection)
  | bulkOk (count : Nat)
  | deleted
  deriving Repr, DecidableEq

/-- HTTP status code sent with each pages result, as in the handlers. -/
def PagesResult.status : PagesResult → Nat
  | .unauthorized => 401
  | .invalidInput => 400
  | .conflict => 400
  | .notFound => 404
  | .okSection _ => 200
  | .created _ => 201
  | .bulkOk _ => 200
  | .deleted => 200

/-- `SELECT * FROM page_content WHERE page_name = ? AND section_id = ?`
(first matching row, as `db.get`). -/
def findSection (rows : List PageSection) (p s : String) : Option PageSection :=
  rows.find? (fun r => r.page_name == p && r.section_id == s)

/-- `SELECT MAX(display_order) FROM page_content WHERE page_name = ?`:
`none` when the page has no rows. -/
def pageMaxOrder (rows : List PageSection) (p : String) : Option Int :=
  ((rows.filter (fun r => r.page_name == p)).map (fun r => r.display_order)).foldl
    (fun acc x =>
      match acc with
      | none => some x
      | some m => some (max m x)) none

/-- Body of `PUT /api/pages/:pageName/:sectionId`; absent fields are `none`. -/
structure UpdateSectionBody where
  section_title : Option String
  content : Option String
  content_type : Option String
  deriving Repr, DecidableEq

/-- The SET clause of the single-section UPDATE: COALESCE keeps the old
value for an absent field; `updated_at` is set to `CURRENT_TIMESTAMP`. -/
def applyUpdate (body : UpdateSectionBody) (now : Nat) (r : PageSection) : PageSection :=
  { r with
    section_title := body.section_title.getD r.section_title
    content := body.content.getD r.content
    content_type := body.content_type.getD r.content_type
    updated_at := now }

/-- The rows of `page_content` after the single-section UPDATE. -/
def updateRows (pageName sectionId : String) (body : UpdateSectionBody) (now : Nat)
    (rows : List PageSection) : List PageSection :=
  rows.map (fun r =>
    if r.page_name == pageName && r.section_id == sectionId then applyUpdate body now r
    else r)

/-- `PUT /api/pages/:pageName/:sectionId` (src/backend/routes/pages.js):
404 when the pair is absent, otherwise UPDATE with COALESCE and a re-read
of the row. -/
def updateSection (auth : Bool) (db : PagesDb) (pageName sectionId : String)
    (body : UpdateSectionBody) (now : Nat) : PagesResult × PagesDb :=
  if !auth then (.unauthorized, db)
  else
    match findSection db.rows pageName sectionId with
    | none => (.notFound, db)
    | some _ =>
      let rows' := updateRows pageName sectionId body now db.rows
      let db' : PagesDb := { rows := rows', nextId := db.nextId }
      match findSection rows' pageName sectionId with
      | none => (.notFound, db')
      | some updated => (.okSection updated, db')

/-- Body of `POST /api/pages/:pageName`; absent fields are `none`. -/
structure CreateSectionBody where
  section_id : String
  section_title : Option String
  content : String
  content_type : Option String
  display_order : Option Int
  deriving Repr, DecidableEq

/-- The `order` variable of the POST handler: `let order = display_order;
if (!order) { order = (max || 0) + 1 }` — note a supplied `0` is falsy. -/
def effectiveOrder (rows : List PageSection) (pageName : String)
    (display_order : Option Int) : Int :=
  let given := display_order.getD 0
  if given == 0 then ((pageMaxOrder rows pageName).getD 0) + 1 else given

/-- The row the INSERT of `POST /api/pages/:pageName` writes:
`section_title || ''`, `content_type || 'text'`, the computed order. -/
def sectionRowOf (db : PagesDb) (pageName : String) (body : CreateSectionBody)
    (now : Nat) : PageSection :=
  { id := db.nextId
    page_name := pageName
    section_id := body.section_id
    section_title := body.section_title.getD ""
    content := body.content
    content_type :=
      match body.content_type with
      | none => "text"
      | some t => if t == "" then "text" else t
    display_order := effectiveOrder db.rows pageName body.display_order
    updated_at := now }

/-- `POST /api/pages/:pageName` (src/backend/routes/pages.js): validates
`section_id` and `content` truthy, rejects an existing (page, section)
pair, computes the display order, inserts, re-reads the row. -/
def createSection (auth : Bool) (db : PagesDb) (pageName : String)
    (body : CreateSectionBody) (now : Nat) : PagesResult × PagesDb :=
  if !auth then (.unauthorized, db)
  else if body.section_id == "" || body.content == "" then (.invalidInput, db)
  else
    match findSection db.rows pageName body.section_id with
    | some _ => (.conflict, db)
    | none =>
      let newRow := sectionRowOf db pageName body now
      let db' : PagesDb := { rows := db.rows ++ [newRow], nextId := db.nextId + 1 }
      match findSection db'.rows pageName body.section_id with
      | none => (.created newRow, db')
      | some inserted => (.created inserted, db')

/-- `GET /api/pages/:pageName/:sectionId` (public). -/
def getSection (db : PagesDb) (pageName sectionId : String) : PagesResult :=
  match findSection db.rows pageName sectionId with
  | none => .notFound
  | some r => .okSection r

/-- `DELETE /api/pages/:pageName/:sectionId`. -/
def deleteSection (auth : Bool) (db : PagesDb) (pageName sectionId : String) :
    PagesResult × PagesDb :=
  if !auth then (.unauthorized, db)
  else
    match findSection db.rows pageName sectionId with
    | none => (.notFound, db)
    | some _ =>
      (.deleted,
        { rows := db.rows.filter
            (fun r => !(r.page_name == pageName && r.section_id == sectionId))
          nextId := db.nextId })

/-- One element of the `sections` array of the bulk route; `section_title`
is only written when provided. -/
structure BulkItem where
  section_id : String
  content : String
  section_title : Option String
  deriving Repr, DecidableEq

/-- One `db.run(UPDATE page_content ...)` of the bulk loop: rewrites every
row matching (page_name, section_id), leaves the rest alone. -/
def applyBulkItem (pageName : String) (now : Nat) (rows : List PageSection)
    (item : BulkItem) : List PageSection :=
  rows.map (fun r =>
    if r.page_name == pageName && r.section_id == item.section_id then
      match item.section_title with
      | some t => { r with content := item.content, section_title := t, updated_at := now }
      | none => { r with content := item.content, updated_at := now }
    else r)

/-- `PUT /api/pages/:pageName/bulk` (src/backend/routes/pages.js): applies
each item independently and reports `sections.length` on success. -/
def bulkUpdateSections (auth : Bool) (db : PagesDb) (pageName : String)
    (sections : Option (List BulkItem)) (now : Nat) : PagesResult × PagesDb :=
  if !auth then (.unauthorized, db)
  else
    match sections with
    | none => (.invalidInput, db)
    | some l =>
      (.bulkOk l.length,
        { rows := l.foldl (applyBulkItem pageName now) db.rows, nextId := db.nextId })

/-- One row of the `news` table. `published` is the stored TINYINT. -/
structure NewsArticle where
  id : Nat
  title : String
  content : String
  category : String
  image_url : Option String
  location : Option String
  published : Int
  created_at : Nat
  updated_at : Nat
  deriving Repr, DecidableEq

/-- The `news` table with its `AUTO_INCREMENT` counter. -/
structure NewsDb where
  rows : List NewsArticle
  nextId : Nat
  deriving Repr, DecidableEq

/-- Results of the news handlers (src news routes file). -/
inductive NewsResult where
  | unauthorized
  | invalidInput
  | notFound
  | listOk (l : List NewsArticle)
  | createdOk (a : Option NewsArticle)
  | updatedOk (a : Option NewsArticle)
  | deletedOk
  | toggledOk (published : Int)
  deriving Repr, DecidableEq

/-- HTTP status code of each news result. -/
def NewsResult.status : NewsResult → Nat
  | .unauthorized => 401
  | .invalidInput => 400
  | .notFound => 404
  | .listOk _ => 200
  | .createdOk _ => 201
  | .updatedOk _ => 200
  | .deletedOk => 200
  | .toggledOk _ => 200

/-- Stable insertion of one article into a list sorted by `created_at`
descending (the article goes after earlier entries with a key ≥ its own). -/
def insertByCreatedDesc (a : NewsArticle) : List NewsArticle → List NewsArticle
  | [] => [a]
  | b :: l => if a.created_at ≤ b.created_at then b :: insertByCreatedDesc a l else a :: b :: l

/-- `ORDER BY created_at DESC` as a stable insertion sort. -/
def sortByCreatedDesc (l : List NewsArticle) : List NewsArticle :=
  l.foldr insertByCreatedDesc []

/-- The WHERE clause of the public news listing when no `published`
query parameter is supplied: `published = 1` plus the optional
exact-match category filter (`all` and the empty string are no-ops). -/
def newsPubFilter (cat : Option String) (r : NewsArticle) : Bool :=
  (r.published == 1) &&
  (match cat with
   | some c => if c == "" || c == "all" then true else r.category == c
   | none => true)

/-- `GET /api/news` (public): `published` query defaults the filter to
`published = 1` but, when supplied, replaces it by `published = ?`;
`category` filters exactly unless falsy or `"all"`; `LIMIT` truncates. -/
def listNews (db : NewsDb) (category : Option String) (limit : Option Nat)
    (published : Option Int) : NewsResult :=
  let matched := db.rows.filter (fun r =>
    (match published with
     | some p => r.published == p
     | none => r.published == 1) &&
    (match category with
     | some c => if c == "" || c == "all" then true else r.category == c
     | none => true))
  let ordered := sortByCreatedDesc matched
  .listOk (match limit with
           | some n => ordered.take n
           | none => ordered)

/-- Body of `POST /api/news`; absent fields are `none`. -/
structure CreateNewsBody where
  title : String
  content : String
  category : Option String
  image_url : Option String
  location : Option String
  published : Option Int
  deriving Repr, DecidableEq

/-- The row the INSERT of `POST /api/news` writes: `category || 'news'`,
`image_url || null`, `published !== undefined ? published : 1`. -/
def newsRowOf (db : NewsDb) (body : CreateNewsBody) (now : Nat) : NewsArticle :=
  { id := db.nextId
    title := body.title
    content := body.content
    category :=
      match body.category with
      | none => "news"
      | some c => if c == "" then "news" else c
    image_url :=
      match body.image_url with
      | none => none
      | some u => if u == "" then none else some u
    location :=
      match body.location with
      | none => none
      | some v => if v == "" then none else some v
    published := body.published.getD 1
    created_at := now
    updated_at := now }

/-- `POST /api/news` (admin): requires truthy title and content, inserts
the defaulted row, re-reads it by `lastInsertRowid`. -/
def createNews (auth : Bool) (db : NewsDb) (body : CreateNewsBody) (now : Nat) :
    NewsResult × NewsDb :=
  if !auth then (.unauthorized, db)
  else if body.title == "" || body.content == "" then (.invalidInput, db)
  else
    let newRow := newsRowOf db body now
    let rows' := db.rows ++ [newRow]
    (.createdOk (rows'.find? (fun r => r.id == db.nextId)),
     { rows := rows', nextId := db.nextId + 1 })

/-- `DELETE /api/news/:id` (admin): 404 when the id is absent. -/
def deleteNews (auth : Bool) (db : NewsDb) (id : Nat) : NewsResult × NewsDb :=
  if !auth then (.unauthorized, db)
  else
    match db.rows.find? (fun r => r.id == id) with
    | none => (.notFound, db)
    | some _ =>
      (.deletedOk, { rows := db.rows.filter (fun r => !(r.id == id)), nextId := db.nextId })

/-- One row of the `messages` table. -/
structure Message where
  id : Nat
  name : String
  email : String
  phone : Option String
  subject : String
  message : String
  is_read : Int
  created_at : Nat
  deriving Repr, DecidableEq

/-- The `messages` table with its `AUTO_INCREMENT` counter. -/
structure MessagesDb where
  rows : List Message
  nextId : Nat
  deriving Repr, DecidableEq

/-- Results of the messages handlers. -/
inductive MsgResult where
  | unauthorized
  | invalidInput
  | notFound
  | submittedOk
  | deletedOk
  deriving Repr, DecidableEq

/-- HTTP status code of each messages result. -/
def MsgResult.status : MsgResult → Nat
  | .unauthorized => 401
  | .invalidInput => 400
  | .notFound => 404
  | .submittedOk => 201
  | .deletedOk => 200

/-- `DELETE /api/messages/:id` (admin): 404 when the id is absent. -/
def deleteMessage (auth : Bool) (db : MessagesDb) (id : Nat) : MsgResult × MessagesDb :=
  if !auth then (.unauthorized, db)
  else
    match db.rows.find? (fun r => r.id == id) with
    | none => (.notFound, db)
    | some _ =>
      (.deletedOk, { rows := db.rows.filter (fun r => !(r.id == id)), nextId := db.nextId })

/-- A character allowed in each segment of the handlers' email pattern
`/^[^\s@]+@[^\s@]+\.[^\s@]+$/`: anything but whitespace and `@`. -/
def emailSegChar (c : Char) : Bool :=
  !c.isWhitespace && c != '@'

/-- A nonempty run of `[^\s@]` characters. -/
def emailSeg (l : List Char) : Bool :=
  !l.isEmpty && l.all emailSegChar

/-- Whether the character list matches the anchored pattern
`[^\s@]+@[^\s@]+\.[^\s@]+`: some `@` splits it so that the part before is
a segment and the part after splits at some `.` into two segments. -/
def emailChars (l : List Char) : Bool :=
  (List.range l.length).any (fun i =>
    l.get? i == some '@' && emailSeg (l.take i) &&
    (let t := l.drop (i + 1)
     (List.range t.length).any (fun j =>
       t.get? j == some '.' && emailSeg (t.take j) && emailSeg (t.drop (j + 1)))))

/-- `emailRegex.test(email)` of the messages and memberships handlers. -/
def emailOk (s : String) : Bool :=
  emailChars s.data

/-- One row of the `memberships` table. -/
structure MembershipRow where
  id : Nat
  full_name : String
  email : String
  phone : String
  university : String
  major : String
  academic_level : String
  wilaya : String
  status : String
  created_at : Nat
  deriving Repr, DecidableEq

/-- The `memberships` table with its `AUTO_INCREMENT` counter. -/
structure MemDb where
  rows : List MembershipRow
  nextId : Nat
  deriving Repr, DecidableEq

/-- Results of the memberships handlers. -/
inductive MemResult where
  | unauthorized
  | invalidInput
  | conflict
  | notFound
  | submittedOk
  | statusOk
  | deletedOk
  | statsOk (total pending approved rejected : Nat)
  deriving Repr, DecidableEq

/-- HTTP status code of each memberships result (the duplicate-email
conflict is sent as 400 by the handler). -/
def MemResult.status : MemResult → Nat
  | .unauthorized => 401
  | .invalidInput => 400
  | .conflict => 400
  | .notFound => 404
  | .submittedOk => 201
  | .statusOk => 200
  | .deletedOk => 200
  | .statsOk _ _ _ _ => 200

/-- Body of `POST /api/memberships`: the seven form fields. -/
structure MembershipBody where
  full_name : String
  email : String
  phone : String
  university : String
  major : String
  academic_level : String
  wilaya : String
  deriving Repr, DecidableEq

/-- The row the INSERT of `POST /api/memberships` writes; the `status`
column is left to its `DEFAULT 'pending'`. -/
def membershipRowOf (db : MemDb) (body : MembershipBody) (now : Nat) : MembershipRow :=
  { id := db.nextId
    full_name := body.full_name
    email := body.email
    phone := body.phone
    university := body.university
    major := body.major
    academic_level := body.academic_level
    wilaya := body.wilaya
    status := "pending"
    created_at := now }

/-- `POST /api/memberships` (public): all seven fields truthy, email
matches the pattern, no existing application with that email; inserts with
`status` left to its `DEFAULT 'pending'`. -/
def submitMembership (db : MemDb) (body : MembershipBody) (now : Nat) :
    MemResult × MemDb :=
  if body.full_name == "" || body.email == "" || body.phone == "" ||
      body.university == "" || body.major == "" || body.academic_level == "" ||
      body.wilaya == "" then
    (.invalidInput, db)
  else if !emailOk body.email then (.invalidInput, db)
  else
    match db.rows.find? (fun r => r.email == body.email) with
    | some _ => (.conflict, db)
    | none =>
      (.submittedOk,
        { rows := db.rows ++ [membershipRowOf db body now], nextId := db.nextId + 1 })

/-- `PATCH /api/memberships/:id/status` (admin): accepts only `pending`,
`approved` or `rejected`; 404 when the id is absent. -/
def updateMembershipStatus (auth : Bool) (db : MemDb) (id : Nat)
    (status : Option String) : MemResult × MemDb :=
  if !auth then (.unauthorized, db)
  else
    match status with
    | none => (.invalidInput, db)
    | some s =>
      if !(s == "pending" || s == "approved" || s == "rejected") then
        (.invalidInput, db)
      else
        match db.rows.find? (fun r => r.id == id) with
        | none => (.notFound, db)
        | some _ =>
          (.statusOk,
            { rows := db.rows.map (fun r => if r.id == id then { r with status := s } else r)
              nextId := db.nextId })

/-- `DELETE /api/memberships/:id` (admin): 404 when the id is absent. -/
def deleteMembership (auth : Bool) (db : MemDb) (id : Nat) : MemResult × MemDb :=
  if !auth then (.unauthorized, db)
  else
    match db.rows.find? (fun r => r.id == id) with
    | none => (.notFound, db)
    | some _ =>
      (.deletedOk, { rows := db.rows.filter (fun r => !(r.id == id)), nextId := db.nextId })

/-- `GET /api/memberships/stats` (admin): four COUNT queries. -/
def membershipStats (auth : Bool) (db : MemDb) : MemResult :=
  if !auth then .unauthorized
  else
    .statsOk db.rows.length
      (db.rows.filter (fun r => r.status == "pending")).length
      (db.rows.filter (fun r => r.status == "approved")).length
      (db.rows.filter (fun r => r.status == "rejected")).length

/-- One row of the `hero_slides` table. -/
structure HeroSlide where
  id : Nat
  title : String
  subtitle : String
  image_url : String
  link_url : String
  link_text : String
  display_order : Int
  is_active : Int
  created_at : Nat
  deriving Repr, DecidableEq

/-- One row of the `specialties` table (`items` kept serialized, as
stored). -/
structure Specialty where
  id : Nat
  name : String
  name_ar : String
  icon : String
  description : String
  image_url : String
  video_url : String
  video_type : String
  items : String
  duration : String
  display_order : Int
  is_active : Int
  created_at : Nat
  updated_at : Nat
  deriving Repr, DecidableEq

/-- A filesystem path, as the list of its segments relative to the
process root; the frontend directory that `path.join(__dirname, '..',
'..', 'frontend', url)` resolves against is `["frontend"]`. -/
def frontendDir : List String := ["frontend"]

/-- The managed upload root `frontend/assets/uploads`. -/
def uploadRoot : List String := frontendDir ++ ["assets", "uploads"]

/-- `url.startsWith(pre)` of the handlers, as a character-list check. -/
def startsWithStr (pre s : String) : Bool :=
  pre.data.isPrefixOf s.data

/-- Split a character list on `/`. -/
def splitSlashes : List Char → List (List Char)
  | [] => [[]]
  | c :: rest =>
    if c = '/' then [] :: splitSlashes rest
    else
      match splitSlashes rest with
      | [] => [[c]]
      | seg :: segs => (c :: seg) :: segs

/-- Split a URL on `/`, dropping empty segments (as `path.join` does with
the leading slash and duplicate separators). -/
def urlSegments (url : String) : List String :=
  ((splitSlashes url.data).map (fun cs => String.mk cs)).filter (fun s => s ≠ "")

/-- Node path normalization over segments: `.` is dropped and `..` pops
the previous segment (at the root it stays at the root, as `path.join`
does for an absolute base). -/
def normalizeSegs (segs : List String) : List String :=
  segs.foldl (fun acc s =>
    if s = "." then acc
    else if s = ".." then acc.dropLast
    else acc ++ [s]) []

/-- `path.join(__dirname, '..', '..', 'frontend', url)` for a url starting
with `/`. -/
def resolvedPath (url : String) : List String :=
  normalizeSegs (frontendDir ++ urlSegments url)

/-- The hero/specialties store together with the disk: `fs` is the set of
existing files (each a resolved path). -/
structure MediaDb where
  hero : List HeroSlide
  specs : List Specialty
  nextId : Nat
  fs : List (List String)
  deriving Repr, DecidableEq

/-- Results of the media handlers. -/
inductive MediaResult where
  | unauthorized
  | invalidInput
  | notFound
  | okMsg
  deriving Repr, DecidableEq

/-- HTTP status code of each media result (success responses here use the
default 200, matching `res.json` without `res.status`). -/
def MediaResult.status : MediaResult → Nat
  | .unauthorized => 401
  | .invalidInput => 400
  | .notFound => 404
  | .okMsg => 200

/-- Body of `PUT /api/media/hero/:id` (all columns rewritten). -/
structure HeroUpdateBody where
  title : String
  subtitle : String
  image_url : String
  link_url : String
  link_text : String
  display_order : Int
  is_active : Bool
  deriving Repr, DecidableEq

/-- `PUT /api/media/hero/:id` (admin): a single UPDATE with no existence
check; zero matching rows is still a success. -/
def updateHeroSlide (auth : Bool) (db : MediaDb) (id : Nat)
    (body : HeroUpdateBody) : MediaResult × MediaDb :=
  if !auth then (.unauthorized, db)
  else
    (.okMsg,
      { db with hero := db.hero.map (fun r =>
          if r.id == id then
            { r with
              title := body.title
              subtitle := body.subtitle
              image_url := body.image_url
              link_url := body.link_url
              link_text := body.link_text
              display_order := body.display_order
              is_active := if body.is_active then 1 else 0 }
          else r) })

/-- `DELETE /api/media/hero/:id` (admin): reads the slide, deletes the
row, then unlinks its image when it is a local upload and exists; always a
success response. -/
def deleteHeroSlide (auth : Bool) (db : MediaDb) (id : Nat) : MediaResult × MediaDb :=
  if !auth then (.unauthorized, db)
  else
    let slide := db.hero.find? (fun r => r.id == id)
    let db' := { db with hero := db.hero.filter (fun r => !(r.id == id)) }
    match slide with
    | none => (.okMsg, db')
    | some s =>
      if startsWithStr "/assets/uploads/" s.image_url then
        let p := resolvedPath s.image_url
        if p ∈ db'.fs then (.okMsg, { db' with fs := db'.fs.erase p })
        else (.okMsg, db')
      else (.okMsg, db')

/-- Body of `PUT /api/media/specialties/:id` (all columns rewritten;
`items` already serialized). -/
structure SpecialtyUpdateBody where
  name : String
  name_ar : String
  icon : String
  description : String
  image_url : String
  video_url : String
  video_type : String
  items : String
  duration : String
  display_order : Int
  is_active : Bool
  deriving Repr, DecidableEq

/-- `PUT /api/media/specialties/:id` (admin): a single UPDATE with no
existence check; zero matching rows is still a success. -/
def updateSpecialty (auth : Bool) (db : MediaDb) (id : Nat)
    (body : SpecialtyUpdateBody) (now : Nat) : MediaResult × MediaDb :=
  if !auth then (.unauthorized, db)
  else
    (.okMsg,
      { db with specs := db.specs.map (fun r =>
          if r.id == id then
            { r with
              name := body.name
              name_ar := body.name_ar
              icon := body.icon
              description := body.description
              image_url := body.image_url
              video_url := body.video_url
              video_type := body.video_type
              items := body.items
              duration := body.duration
              display_order := body.display_order
              is_active := if body.is_active then 1 else 0
              updated_at := now }
          else r) })

/-- `DELETE /api/media/specialties/:id` (admin): same shape as the hero
delete; always a success response. -/
def deleteSpecialty (auth : Bool) (db : MediaDb) (id : Nat) : MediaResult × MediaDb :=
  if !auth then (.unauthorized, db)
  else
    let spec := db.specs.find? (fun r => r.id == id)
    let db' := { db with specs := db.specs.filter (fun r => !(r.id == id)) }
    match spec with
    | none => (.okMsg, db')
    | some s =>
      if startsWithStr "/assets/uploads/" s.image_url then
        let p := resolvedPath s.image_url
        if p ∈ db'.fs then (.okMsg, { db' with fs := db'.fs.erase p })
        else (.okMsg, db')
      else (.okMsg, db')

/-- `DELETE /api/media/upload` (admin): rejects a url not literally
starting with `/assets/uploads/`, resolves the path under the frontend
directory, 404 when the file is absent, unlinks it otherwise. -/
def deleteUpload (auth : Bool) (fs : List (List String)) (url : Option String) :
    MediaResult × List (List String) :=
  if !auth then (.unauthorized, fs)
  else
    match url with
    | none => (.invalidInput, fs)
    | some u =>
      if !startsWithStr "/assets/uploads/" u then (.invalidInput, fs)
      else
        let p := resolvedPath u
        if p ∈ fs then (.okMsg, fs.erase p)
        else (.notFound, fs)

/-- Every membership row carries one of the three recognized statuses. -/
def statusInv (db : MemDb) : Prop :=
  ∀ m ∈ db.rows, m.status = "pending" ∨ m.status = "approved" ∨ m.status = "rejected"

/-- States of the `memberships` table reachable through its HTTP
operations, starting from the empty table the schema creates: public
submits, admin status updates and admin deletes (the reads mutate
nothing). -/
inductive MemReach : MemDb → Prop where
  | init : MemReach { rows := [], nextId := 1 }
  | submit (db : MemDb) (body : MembershipBody) (now : Nat) :
      MemReach db → MemReach (submitMembership db body now).2
  | setStatus (auth : Bool) (db : MemDb) (id : Nat) (status : Option String) :
      MemReach db → MemReach (updateMembershipStatus auth db id status).2
  | del (auth : Bool) (db : MemDb) (id : Nat) :
      MemReach db → MemReach (deleteMembership auth db id).2

/-- An empty `page_content` table. -/
def pagesDb0 : PagesDb := { rows := [], nextId := 1 }

/-- A sample stored section on the home page. -/
def secHome : PageSection :=
  { id := 1, page_name := "home", section_id := "hero", section_title := "T"
    content := "old", content_type := "text", display_order := 1, updated_at := 0 }

/-- A one-row `page_content` table. -/
def pagesDb1 : PagesDb := { rows := [secHome], nextId := 2 }

/-- An empty `news` table. -/
def newsDb0 : NewsDb := { rows := [], nextId := 1 }

/-- A valid news creation body. -/
def newsBody1 : CreateNewsBody :=
  { title := "Title", content := "Body", category := none, image_url := none
    location := none, published := none }

/-- A stored article with `published = 0`. -/
def unpubArticle : NewsArticle :=
  { id := 1, title := "t", content := "c", category := "news", image_url := none
    location := none, published := 0, created_at := 1, updated_at := 1 }

/-- A `news` table holding only an unpublished article. -/
def newsDb1 : NewsDb := { rows := [unpubArticle], nextId := 2 }

/-- An empty `messages` table. -/
def msgsDb0 : MessagesDb := { rows := [], nextId := 1 }

/-- An empty `memberships` table. -/
def memDb0 : MemDb := { rows := [], nextId := 1 }

/-- A valid membership application body. -/
def memBody1 : MembershipBody :=
  { full_name := "N", email := "a@b.c", phone := "p", university := "u"
    major := "m", academic_level := "l", wilaya := "w" }

/-- A second application body reusing the same email. -/
def memBody2 : MembershipBody :=
  { full_name := "M", email := "a@b.c", phone := "q", university := "v"
    major := "n", academic_level := "k", wilaya := "x" }

/-- The `memberships` table after one successful submit. -/
def memDb1 : MemDb := (submitMembership memDb0 memBody1 5).2

/-- An empty media store with an empty disk. -/
def mediaDb0 : MediaDb := { hero := [], specs := [], nextId := 1, fs := [] }

/-- A hero update body. -/
def heroBody1 : HeroUpdateBody :=
  { title := "t", subtitle := "s", image_url := "u", link_url := "l"
    link_text := "lt", display_order := 0, is_active := true }

/-- A specialty update body. -/
def specBody1 : SpecialtyUpdateBody :=
  { name := "n", name_ar := "na", icon := "i", description := "d"
    image_url := "iu", video_url := "vu", video_type := "youtube"
    items := "[]", duration := "", display_order := 0, is_active := true }

/-- A disk holding a file outside the upload root and one inside it. -/
def fs1 : List (List String) :=
  [["frontend", "secret.txt"], ["frontend", "assets", "uploads", "hero", "a.png"]]

theorem find?_append_of_none {α : Type} (p : α → Bool) (l₁ l₂ : List α)
    (h : l₁.find? p = none) : (l₁ ++ l₂).find? p = l₂.find? p := by
  induction l₁ with
  | nil => rfl
  | cons a t ih =>
    cases hp : p a with
    | true => simp [List.find?_cons, hp] at h
    | false =>
      simp only [List.find?_cons, hp] at h
      simp only [List.cons_append, List.find?_cons, hp]
      exact ih h

theorem map_id_of_eq {α : Type} (l : List α) (f : α → α) (h : ∀ a ∈ l, f a = a) :
    l.map f = l := by
  induction l with
  | nil => rfl
  | cons a t ih =>
    simp only [List.map_cons, h a (by simp)]
    rw [ih (fun x hx => h x (by simp [hx]))]

theorem find?_map_preserve {α : Type} (q : α → Bool) (u : α → α)
    (hq : ∀ r, q (u r) = q r) (l : List α) :
    (l.map (fun r => if q r = true then u r else r)).find? q =
      (l.find? q).map u := by
  induction l with
  | nil => rfl
  | cons a t ih =>
    cases h : q a with
    | true => simp [List.find?_cons, hq, h]
    | false => simp [List.find?_cons, hq, h, ih]

theorem findSection_updateRows (rows : List PageSection) (p s : String)
    (body : UpdateSectionBody) (now : Nat) :
    findSection (updateRows p s body now rows) p s =
      (findSection rows p s).map (applyUpdate body now) := by
  unfold findSection updateRows
  exact find?_map_preserve (fun r => r.page_name == p && r.section_id == s)
    (applyUpdate body now) (fun _ => rfl) rows

theorem mem_insertByCreatedDesc {x a : NewsArticle} {l : List NewsArticle}
    (h : x ∈ insertByCreatedDesc a l) : x = a ∨ x ∈ l := by
  induction l with
  | nil => simpa [insertByCreatedDesc] using h
  | cons b t ih =>
    by_cases hc : a.created_at ≤ b.created_at
    · simp only [insertByCreatedDesc, if_pos hc, List.mem_cons] at h
      rcases h with h | h
      · exact Or.inr (by simp [h])
      · rcases ih h with h | h
        · exact Or.inl h
        · exact Or.inr (by simp [h])
    · simp only [insertByCreatedDesc, if_neg hc, List.mem_cons] at h
      rcases h with h | h
      · exact Or.inl h
      · exact Or.inr (by simpa using h)

theorem pairwise_insertByCreatedDesc (a : NewsArticle) (l : List NewsArticle)
    (h : l.Pairwise (fun x y => y.created_at ≤ x.created_at)) :
    (insertByCreatedDesc a l).Pairwise (fun x y => y.created_at ≤ x.created_at) := by
  induction l with
  | nil => simp [insertByCreatedDesc]
  | cons b t ih =>
    rw [List.pairwise_cons] at h
    by_cases hc : a.created_at ≤ b.created_at
    · rw [insertByCreatedDesc, if_pos hc, List.pairwise_cons]
      refine ⟨fun x hx => ?_, ih h.2⟩
      rcases mem_insertByCreatedDesc hx with hx | hx
      · simpa [hx] using hc
      · exact h.1 x hx
    · rw [insertByCreatedDesc, if_neg hc, List.pairwise_cons]
      refine ⟨fun x hx => ?_, List.pairwise_cons.mpr h⟩
      rcases List.mem_cons.mp hx with hx | hx
      · simp [hx]; omega
      · exact le_trans (h.1 x hx) (by omega)

theorem pairwise_sortByCreatedDesc (l : List NewsArticle) :
    (sortByCreatedDesc l).Pairwise (fun x y => y.created_at ≤ x.created_at) := by
  induction l with
  | nil => simp [sortByCreatedDesc]
  | cons a t ih => exact pairwise_insertByCreatedDesc a _ ih

theorem mem_sortByCreatedDesc {x : NewsArticle} {l : List NewsArticle}
    (h : x ∈ sortByCreatedDesc l) : x ∈ l := by
  induction l with
  | nil => simp [sortByCreatedDesc] at h
  | cons a t ih =>
    rcases mem_insertByCreatedDesc h with h | h
    · simp [h]
    · simp [ih h]

theorem length_eq_three_status_counts (rows : List MembershipRow)
    (h : ∀ m ∈ rows, m.status = "pending" ∨ m.status = "approved" ∨ m.status = "rejected") :
    rows.length =
      (rows.filter (fun r => r.status == "pending")).length +
        (rows.filter (fun r => r.status == "approved")).length +
        (rows.filter (fun r => r.status == "rejected")).length := by
  induction rows with
  | nil => rfl
  | cons a t ih =>
    have ih' := ih (fun m hm => h m (by simp [hm]))
    rcases h a (by simp) with h1 | h1 | h1 <;>
      simp [List.filter_cons, h1, ih'] <;> omega

theorem statusInv_submit (db : MemDb) (body : MembershipBody) (now : Nat)
    (h : statusInv db) : statusInv (submitMembership db body now).2 := by
  unfold submitMembership
  split
  · exact h
  · split
    · exact h
    · split
      · exact h
      · intro m hm
        rcases List.mem_append.mp hm with hm | hm
        · exact h m hm
        · simp only [List.mem_singleton] at hm
          subst hm
          simp [membershipRowOf]

theorem statusInv_setStatus (auth : Bool) (db : MemDb) (id : Nat)
    (status : Option String) (h : statusInv db) :
    statusInv (updateMembershipStatus auth db id status).2 := by
  unfold updateMembershipStatus
  split
  · exact h
  · split
    · exact h
    · split
      · exact h
      · split
        · exact h
        · rename_i hauth s hs hfound r hr
          intro m hm
          simp only [List.mem_map] at hm
          obtain ⟨x, hx, hxm⟩ := hm
          by_cases hid : (x.id == id) = true
          · subst hxm
            simp only [hid, if_true]
            have hs3 : s = "pending" ∨ s = "approved" ∨ s = "rejected" := by
              by_contra hc
              push_neg at hc
              obtain ⟨h1, h2, h3⟩ := hc
              exact hs (by simp [beq_eq_false_iff_ne, h1, h2, h3])
            simpa using hs3
          · subst hxm
            simp only [hid, if_false]
            exact h x hx

theorem statusInv_delete (auth : Bool) (db : MemDb) (id : Nat)
    (h : statusInv db) : statusInv (deleteMembership auth db id).2 := by
  unfold deleteMembership
  split
  · exact h
  · split
    · exact h
    · intro m hm
      exact h m (List.mem_of_mem_filter hm)

theorem statusInv_of_reach (db : MemDb) (h : MemReach db) : statusInv db := by
  induction h with
  | init => intro m hm; simp at hm
  | submit db body now _ ih => exact statusInv_submit db body now ih
  | setStatus auth db id status _ ih => exact statusInv_setStatus auth db id status ih
  | del auth db id _ ih => exact statusInv_delete auth db id ih

theorem find?_append_single_of_none {α : Type} (p : α → Bool) (l : List α) (a : α)
    (h : l.find? p = none) (ha : p a = true) : (l ++ [a]).find? p = some a := by
  rw [find?_append_of_none _ _ _ h]
  simp [List.find?_cons, ha]

theorem applyBulkItem_of_no_match (p : String) (now : Nat) (rows : List PageSection)
    (item : BulkItem)
    (h : ∀ r ∈ rows, (r.page_name == p && r.section_id == item.section_id) = false) :
    applyBulkItem p now rows item = rows := by
  apply map_id_of_eq
  intro a ha
  simp [h a ha]

theorem mem_applyBulkItem (p : String) (now : Nat) (rows : List PageSection)
    (item : BulkItem) (r : PageSection) (hr : r ∈ rows)
    (h : (r.page_name == p && r.section_id == item.section_id) = false) :
    r ∈ applyBulkItem p now rows item := by
  refine List.mem_map.mpr ⟨r, hr, ?_⟩
  simp [h]

theorem mem_foldl_applyBulkItem (p : String) (now : Nat) (l : List BulkItem)
    (rows : List PageSection) (r : PageSection) (hr : r ∈ rows)
    (h : ∀ item ∈ l, (r.page_name == p && r.section_id == item.section_id) = false) :
    r ∈ l.foldl (applyBulkItem p now) rows := by
  induction l generalizing rows with
  | nil => exact hr
  | cons a t ih =>
    exact ih _ (mem_applyBulkItem p now rows a r hr (h a (by simp)))
      (fun item hi => h item (by simp [hi]))

/-- C1: every admin-only operation called without a session carrying an
admin id answers 401 Unauthorized and leaves the store untouched, while
the identical `POST /api/news` request with a valid session answers 201
with the created article carrying the generated id and its `created_at`
timestamp. -/
theorem admin_ops_require_session :
    (∀ db body now, (∀ r ∈ db.rows, r.id ≠ db.nextId) →
      body.title ≠ "" → body.content ≠ "" →
      createNews true db body now =
        (NewsResult.createdOk (some (newsRowOf db body now)),
         { rows := db.rows ++ [newsRowOf db body now], nextId := db.nextId + 1 }) ∧
      (newsRowOf db body now).id = db.nextId ∧
      (newsRowOf db body now).created_at = now ∧
      (NewsResult.createdOk (some (newsRowOf db body now))).status = 201) ∧
    (∀ db body now, createNews false db body now = (NewsResult.unauthorized, db)) ∧
    (∀ db id, deleteNews false db id = (NewsResult.unauthorized, db)) ∧
    (∀ db p body now, createSection false db p body now = (PagesResult.unauthorized, db)) ∧
    (∀ db p s body now, updateSection false db p s body now = (PagesResult.unauthorized, db)) ∧
    (∀ db p s, deleteSection false db p s = (PagesResult.unauthorized, db)) ∧
    (∀ db p l now, bulkUpdateSections false db p l now = (PagesResult.unauthorized, db)) ∧
    (∀ db id, deleteMessage false db id = (MsgResult.unauthorized, db)) ∧
    (∀ db id s, updateMembershipStatus false db id s = (MemResult.unauthorized, db)) ∧
    (∀ db id, deleteMembership false db id = (MemResult.unauthorized, db)) ∧
    (∀ db id body, updateHeroSlide false db id body = (MediaResult.unauthorized, db)) ∧
    (∀ db id, deleteHeroSlide false db id = (MediaResult.unauthorized, db)) ∧
    (∀ db id body now, updateSpecialty false db id body now = (MediaResult.unauthorized, db)) ∧
    (∀ db id, deleteSpecialty false db id = (MediaResult.unauthorized, db)) ∧
    (∀ fs url, deleteUpload false fs url = (MediaResult.unauthorized, fs)) ∧
    NewsResult.unauthorized.status = 401 ∧ PagesResult.unauthorized.status = 401 ∧
    MsgResult.unauthorized.status = 401 ∧ MemResult.unauthorized.status = 401 ∧
    MediaResult.unauthorized.status = 401 := by
  refine ⟨?_, fun db body now => rfl, fun db id => rfl, fun db p body now => rfl,
    fun db p s body now => rfl, fun db p s => rfl, fun db p l now => rfl,
    fun db id => rfl, fun db id s => rfl, fun db id => rfl, fun db id body => rfl,
    fun db id => rfl, fun db id body now => rfl, fun db id => rfl,
    fun fs url => rfl, rfl, rfl, rfl, rfl, rfl⟩
  intro db body now hwf ht hc
  have ht' : (body.title == "") = false := beq_eq_false_iff_ne.mpr ht
  have hc' : (body.content == "") = false := beq_eq_false_iff_ne.mpr hc
  have hfind : (db.rows ++ [newsRowOf db body now]).find? (fun r => r.id == db.nextId) =
      some (newsRowOf db body now) := by
    apply find?_append_single_of_none
    · exact List.find?_eq_none.mpr (fun x hx => by simp [hwf x hx])
    · simp [newsRowOf]
  exact ⟨by simp [createNews, ht', hc', hfind], rfl, rfl, rfl⟩

/-- Witness for C1 at a concrete store and request. -/
theorem admin_ops_require_session_witness :
    (∀ r ∈ newsDb0.rows, r.id ≠ newsDb0.nextId) ∧ newsBody1.title ≠ "" ∧
    newsBody1.content ≠ "" ∧
    (createNews true newsDb0 newsBody1 7 =
      (NewsResult.createdOk (some (newsRowOf newsDb0 newsBody1 7)),
       { rows := newsDb0.rows ++ [newsRowOf newsDb0 newsBody1 7]
         nextId := newsDb0.nextId + 1 }) ∧
     (newsRowOf newsDb0 newsBody1 7).id = newsDb0.nextId ∧
     (newsRowOf newsDb0 newsBody1 7).created_at = 7 ∧
     (NewsResult.createdOk (some (newsRowOf newsDb0 newsBody1 7))).status = 201) :=
  ⟨by decide, by decide, by decide,
   admin_ops_require_session.1 newsDb0 newsBody1 7 (by decide) (by decide) (by decide)⟩

/-- C2: an authenticated bulk update with a well-formed array succeeds,
reports the number of items in the input list, applies each item as an
independent UPDATE, leaves every row untouched by any item in place, and
an item naming an absent section is silently a no-op for the store. -/
theorem bulk_update_counts_items (db : PagesDb) (p : String) (l : List BulkItem)
    (now : Nat) :
    bulkUpdateSections true db p (some l) now =
      (PagesResult.bulkOk l.length,
       { rows := l.foldl (applyBulkItem p now) db.rows, nextId := db.nextId }) ∧
    (PagesResult.bulkOk l.length).status = 200 ∧
    (∀ r ∈ db.rows, (∀ item ∈ l, ¬(r.page_name = p ∧ r.section_id = item.section_id)) →
      r ∈ (bulkUpdateSections true db p (some l) now).2.rows) ∧
    (∀ item : BulkItem,
      (∀ r ∈ db.rows, ¬(r.page_name = p ∧ r.section_id = item.section_id)) →
      bulkUpdateSections true db p (some [item]) now = (PagesResult.bulkOk 1, db)) := by
  refine ⟨rfl, rfl, ?_, ?_⟩
  · intro r hr hnone
    apply mem_foldl_applyBulkItem p now l db.rows r hr
    intro item hi
    have := hnone item hi
    simp only [not_and] at this
    by_cases hp : r.page_name = p
    · simp [beq_eq_false_iff_ne, this hp]
    · simp [beq_eq_false_iff_ne, hp]
  · intro item hnone
    have hid : applyBulkItem p now db.rows item = db.rows := by
      apply applyBulkItem_of_no_match
      intro r hr
      have := hnone r hr
      simp only [not_and] at this
      by_cases hp : r.page_name = p
      · simp [beq_eq_false_iff_ne, this hp]
      · simp [beq_eq_false_iff_ne, hp]
    show (PagesResult.bulkOk 1,
      ({ rows := [item].foldl (applyBulkItem p now) db.rows, nextId := db.nextId } : PagesDb)) = _
    rw [List.foldl_cons, List.foldl_nil, hid]

/-- Witness for C2: one item naming a missing section on an empty page. -/
theorem bulk_update_counts_items_witness :
    bulkUpdateSections true pagesDb0 "home" (some [⟨"missing_section", "x", none⟩]) 3 =
      (PagesResult.bulkOk 1,
       { rows := [⟨"missing_section", "x", none⟩].foldl (applyBulkItem "home" 3) pagesDb0.rows
         nextId := pagesDb0.nextId }) ∧
    (∀ r ∈ pagesDb0.rows,
      ¬(r.page_name = "home" ∧ r.section_id = "missing_section")) ∧
    bulkUpdateSections true pagesDb0 "home" (some [⟨"missing_section", "x", none⟩]) 3 =
      (PagesResult.bulkOk 1, pagesDb0) :=
  ⟨(bulk_update_counts_items pagesDb0 "home" [⟨"missing_section", "x", none⟩] 3).1,
   by decide,
   (bulk_update_counts_items pagesDb0 "home" [⟨"missing_section", "x", none⟩] 3).2.2.2
     ⟨"missing_section", "x", none⟩ (by decide)⟩

/-- C3: an authenticated single-section update supplying only `content`
answers with the row whose `content` and `updated_at` changed and every
other field kept, stores exactly that row under the (page, section) key,
leaves all other rows in place, and fails NotFound (store unchanged) when
the section is absent. -/
theorem update_section_content_only (db : PagesDb) (p s c : String) (now : Nat) :
    (∀ r0, findSection db.rows p s = some r0 →
      (updateSection true db p s ⟨none, some c, none⟩ now).1 =
        PagesResult.okSection { r0 with content := c, updated_at := now } ∧
      findSection (updateSection true db p s ⟨none, some c, none⟩ now).2.rows p s =
        some { r0 with content := c, updated_at := now } ∧
      ∀ r ∈ db.rows, ¬(r.page_name = p ∧ r.section_id = s) →
        r ∈ (updateSection true db p s ⟨none, some c, none⟩ now).2.rows) ∧
    (findSection db.rows p s = none →
      updateSection true db p s ⟨none, some c, none⟩ now = (PagesResult.notFound, db)) := by
  constructor
  · intro r0 h
    have hre : findSection (updateRows p s ⟨none, some c, none⟩ now db.rows) p s =
        some { r0 with content := c, updated_at := now } := by
      rw [findSection_updateRows, h]; rfl
    have hrows : (updateSection true db p s ⟨none, some c, none⟩ now).2.rows =
        updateRows p s ⟨none, some c, none⟩ now db.rows := by
      simp [updateSection, h, hre]
    refine ⟨by simp [updateSection, h, hre], by rw [hrows]; exact hre, ?_⟩
    intro r hr hno
    rw [hrows]
    refine List.mem_map.mpr ⟨r, hr, ?_⟩
    simp only [not_and] at hno
    by_cases hp : r.page_name = p
    · simp [beq_eq_false_iff_ne, hno hp]
    · simp [beq_eq_false_iff_ne, hp]
  · intro h
    simp [updateSection, h]

/-- Witness for C3 at a one-row store and at an empty store. -/
theorem update_section_content_only_witness :
    findSection pagesDb1.rows "home" "hero" = some secHome ∧
    ((updateSection true pagesDb1 "home" "hero" ⟨none, some "new", none⟩ 9).1 =
      PagesResult.okSection { secHome with content := "new", updated_at := 9 } ∧
     findSection (updateSection true pagesDb1 "home" "hero" ⟨none, some "new", none⟩ 9).2.rows
        "home" "hero" = some { secHome with content := "new", updated_at := 9 } ∧
     ∀ r ∈ pagesDb1.rows, ¬(r.page_name = "home" ∧ r.section_id = "hero") →
       r ∈ (updateSection true pagesDb1 "home" "hero" ⟨none, some "new", none⟩ 9).2.rows) ∧
    findSection pagesDb0.rows "about" "x" = none ∧
    updateSection true pagesDb0 "about" "x" ⟨none, some "new", none⟩ 9 =
      (PagesResult.notFound, pagesDb0) :=
  ⟨by decide,
   (update_section_content_only pagesDb1 "home" "hero" "new" 9).1 secHome (by decide),
   by decide,
   (update_section_content_only pagesDb0 "about" "x" "new" 9).2 (by decide)⟩

/-- C4 counterexample: on an empty page, a create supplying
`display_order = 0` stores the section with `display_order = 1`, not the
supplied value — the handler treats 0 as falsy and recomputes the order. -/
theorem create_section_order_zero_not_stored :
    (createSection true pagesDb0 "home" ⟨"s", none, "c", none, some 0⟩ 3).1 =
      PagesResult.created ⟨1, "home", "s", "", "c", "text", 1, 3⟩ ∧
    findSection (createSection true pagesDb0 "home" ⟨"s", none, "c", none, some 0⟩ 3).2.rows
      "home" "s" = some ⟨1, "home", "s", "", "c", "text", 1, 3⟩ ∧
    (1 : Int) ≠ 0 := by decide

/-- C4 (amended): an authenticated create stores the row it builds; when
`display_order` is omitted or supplied as the falsy 0 the stored order is
the page's maximum existing order plus 1 (1 when the page has no rows),
and a supplied nonzero `display_order` is stored as given. -/
theorem create_section_display_order (db : PagesDb) (p : String)
    (body : CreateSectionBody) (now : Nat)
    (hsid : body.section_id ≠ "") (hc : body.content ≠ "")
    (hnew : findSection db.rows p body.section_id = none) :
    createSection true db p body now =
      (PagesResult.created (sectionRowOf db p body now),
       { rows := db.rows ++ [sectionRowOf db p body now], nextId := db.nextId + 1 }) ∧
    ((body.display_order = none ∨ body.display_order = some 0) →
      (sectionRowOf db p body now).display_order = (pageMaxOrder db.rows p).getD 0 + 1) ∧
    (∀ d, body.display_order = some d → d ≠ 0 →
      (sectionRowOf db p body now).display_order = d) ∧
    (body.display_order = none → db.rows.filter (fun r => r.page_name == p) = [] →
      (sectionRowOf db p body now).display_order = 1) := by
  have hsid' : (body.section_id == "") = false := beq_eq_false_iff_ne.mpr hsid
  have hc' : (body.content == "") = false := beq_eq_false_iff_ne.mpr hc
  have hfind : findSection (db.rows ++ [sectionRowOf db p body now]) p body.section_id =
      some (sectionRowOf db p body now) := by
    unfold findSection at hnew ⊢
    exact find?_append_single_of_none _ _ _ hnew (by simp [sectionRowOf])
  refine ⟨by simp [createSection, hsid', hc', hnew, hfind], ?_, ?_, ?_⟩
  · rintro (hdo | hdo) <;> simp [sectionRowOf, effectiveOrder, hdo]
  · intro d hd hdne
    simp [sectionRowOf, effectiveOrder, hd, beq_eq_false_iff_ne.mpr hdne]
  · intro hdo hfilter
    simp [sectionRowOf, effectiveOrder, pageMaxOrder, hdo, hfilter]

/-- Witness for the amended C4: creates on an empty page. -/
theorem create_section_display_order_witness :
    (⟨"hero_title", none, "Welcome", none, none⟩ : CreateSectionBody).section_id ≠ "" ∧
    (⟨"hero_title", none, "Welcome", none, none⟩ : CreateSectionBody).content ≠ "" ∧
    findSection pagesDb0.rows "home" "hero_title" = none ∧
    (createSection true pagesDb0 "home" ⟨"hero_title", none, "Welcome", none, none⟩ 3 =
      (PagesResult.created (sectionRowOf pagesDb0 "home" ⟨"hero_title", none, "Welcome", none, none⟩ 3),
       { rows := pagesDb0.rows ++ [sectionRowOf pagesDb0 "home" ⟨"hero_title", none, "Welcome", none, none⟩ 3]
         nextId := pagesDb0.nextId + 1 }) ∧
     ((⟨"hero_title", none, "Welcome", none, none⟩ : CreateSectionBody).display_order = none ∨
       (⟨"hero_title", none, "Welcome", none, none⟩ : CreateSectionBody).display_order = some 0 →
      (sectionRowOf pagesDb0 "home" ⟨"hero_title", none, "Welcome", none, none⟩ 3).display_order =
        (pageMaxOrder pagesDb0.rows "home").getD 0 + 1) ∧
     (∀ d, (⟨"hero_title", none, "Welcome", none, none⟩ : CreateSectionBody).display_order = some d →
       d ≠ 0 →
       (sectionRowOf pagesDb0 "home" ⟨"hero_title", none, "Welcome", none, none⟩ 3).display_order = d) ∧
     ((⟨"hero_title", none, "Welcome", none, none⟩ : CreateSectionBody).display_order = none →
       pagesDb0.rows.filter (fun r => r.page_name == "home") = [] →
       (sectionRowOf pagesDb0 "home" ⟨"hero_title", none, "Welcome", none, none⟩ 3).display_order = 1)) :=
  ⟨by decide, by decide, by decide,
   create_section_display_order pagesDb0 "home" ⟨"hero_title", none, "Welcome", none, none⟩ 3
     (by decide) (by decide) (by decide)⟩

/-- C5: an authenticated create of an absent (page, section) pair followed
by a public get of that pair returns a section carrying exactly the given
content and type, while a create of an existing pair fails Conflict and
inserts nothing. -/
theorem create_get_roundtrip (db : PagesDb) (p : String) (body : CreateSectionBody)
    (now : Nat) (t : String)
    (hsid : body.section_id ≠ "") (hc : body.content ≠ "")
    (ht : body.content_type = some t) (htne : t ≠ "") :
    (findSection db.rows p body.section_id = none →
      (createSection true db p body now).1.status = 201 ∧
      getSection (createSection true db p body now).2 p body.section_id =
        PagesResult.okSection (sectionRowOf db p body now) ∧
      (sectionRowOf db p body now).content = body.content ∧
      (sectionRowOf db p body now).content_type = t) ∧
    (∀ r0, findSection db.rows p body.section_id = some r0 →
      createSection true db p body now = (PagesResult.conflict, db)) := by
  have hsid' : (body.section_id == "") = false := beq_eq_false_iff_ne.mpr hsid
  have hc' : (body.content == "") = false := beq_eq_false_iff_ne.mpr hc
  constructor
  · intro hnew
    have hfind : findSection (db.rows ++ [sectionRowOf db p body now]) p body.section_id =
        some (sectionRowOf db p body now) := by
      unfold findSection at hnew ⊢
      exact find?_append_single_of_none _ _ _ hnew (by simp [sectionRowOf])
    refine ⟨?_, ?_, rfl, ?_⟩
    · simp [createSection, hsid', hc', hnew, hfind, PagesResult.status]
    · have hdb : (createSection true db p body now).2.rows =
          db.rows ++ [sectionRowOf db p body now] := by
        simp [createSection, hsid', hc', hnew, hfind]
      unfold getSection
      rw [hdb, hfind]
    · simp [sectionRowOf, ht, beq_eq_false_iff_ne.mpr htne]
  · intro r0 h
    simp [createSection, hsid', hc', h]

/-- Witness for C5: a fresh create on an empty store and a conflicting
create on a one-row store. -/
theorem create_get_roundtrip_witness :
    (findSection pagesDb0.rows "home" "s1" = none →
      (createSection true pagesDb0 "home" ⟨"s1", none, "Welcome", some "html", none⟩ 4).1.status = 201 ∧
      getSection (createSection true pagesDb0 "home" ⟨"s1", none, "Welcome", some "html", none⟩ 4).2
          "home" "s1" =
        PagesResult.okSection (sectionRowOf pagesDb0 "home" ⟨"s1", none, "Welcome", some "html", none⟩ 4) ∧
      (sectionRowOf pagesDb0 "home" ⟨"s1", none, "Welcome", some "html", none⟩ 4).content = "Welcome" ∧
      (sectionRowOf pagesDb0 "home" ⟨"s1", none, "Welcome", some "html", none⟩ 4).content_type = "html") ∧
    findSection pagesDb1.rows "home" "hero" = some secHome ∧
    createSection true pagesDb1 "home" ⟨"hero", none, "x", some "text", none⟩ 4 =
      (PagesResult.conflict, pagesDb1) :=
  ⟨(create_get_roundtrip pagesDb0 "home" ⟨"s1", none, "Welcome", some "html", none⟩ 4 "html"
      (by decide) (by decide) rfl (by decide)).1,
   by decide,
   (create_get_roundtrip pagesDb1 "home" ⟨"hero", none, "x", some "text", none⟩ 4 "text"
      (by decide) (by decide) rfl (by decide)).2 secHome (by decide)⟩

/-- C6 counterexample: the public news listing honors a `published` query
parameter with no authentication, so requesting `published=0` hands an
unauthenticated reader the unpublished article. -/
theorem public_news_published_filter_bypass :
    listNews newsDb1 none none (some 0) = NewsResult.listOk [unpubArticle] ∧
    unpubArticle.published = 0 ∧ ((0 : Int) = 1 → False) := by decide

/-- C6 (amended): when the `published` query parameter is absent, every
article the public listing returns is published, the list is ordered by
`created_at` descending, a category filter is exact-match, `all` is a
no-op filter, and a limit truncates the count; the `published` parameter,
however, replaces the publish filter for any caller. -/
theorem list_news_no_published_param (db : NewsDb) (cat : Option String)
    (lim : Option Nat) :
    ∃ l, listNews db cat lim none = NewsResult.listOk l ∧
      (∀ r ∈ l, r.published = 1) ∧
      l.Pairwise (fun a b => b.created_at ≤ a.created_at) ∧
      (∀ c, cat = some c → c ≠ "" → c ≠ "all" → ∀ r ∈ l, r.category = c) ∧
      (∀ n, lim = some n → l.length ≤ n) ∧
      listNews db (some "all") lim none = listNews db none lim none := by
  have hfil : ∀ r ∈ db.rows.filter (newsPubFilter cat),
      r.published = 1 ∧ (∀ c, cat = some c → c ≠ "" → c ≠ "all" → r.category = c) := by
    intro r hr
    have h : newsPubFilter cat r = true := List.of_mem_filter hr
    unfold newsPubFilter at h
    rw [Bool.and_eq_true] at h
    refine ⟨by simpa using h.1, ?_⟩
    intro c hcat hc1 hc2
    have h2 := h.2
    rw [hcat] at h2
    have hif : (c == "" || c == "all") = false := by simp [hc1, hc2]
    simp only [hif, Bool.false_eq_true, if_false] at h2
    simpa using h2
  cases lim with
  | none =>
    refine ⟨sortByCreatedDesc (db.rows.filter (newsPubFilter cat)), rfl, ?_,
      pairwise_sortByCreatedDesc _, ?_, ?_, ?_⟩
    · intro r hr
      exact (hfil r (mem_sortByCreatedDesc hr)).1
    · intro c hcat hc1 hc2 r hr
      exact (hfil r (mem_sortByCreatedDesc hr)).2 c hcat hc1 hc2
    · intro n hn
      cases hn
    · simp [listNews]
  | some n =>
    refine ⟨(sortByCreatedDesc (db.rows.filter (newsPubFilter cat))).take n, rfl, ?_,
      (pairwise_sortByCreatedDesc _).sublist (List.take_sublist n _), ?_, ?_, ?_⟩
    · intro r hr
      exact (hfil r (mem_sortByCreatedDesc (List.take_subset n _ hr))).1
    · intro c hcat hc1 hc2 r hr
      exact (hfil r (mem_sortByCreatedDesc (List.take_subset n _ hr))).2 c hcat hc1 hc2
    · intro m hm
      injection hm with h
      subst h
      exact List.length_take_le _ _
    · simp [listNews]

/-- Witness for the amended C6 at a two-article store. -/
theorem list_news_no_published_param_witness :
    ∃ l, listNews { rows := [unpubArticle, ⟨2, "p", "c", "news", none, none, 1, 5, 5⟩], nextId := 3 }
        (some "news") (some 1) none = NewsResult.listOk l ∧
      (∀ r ∈ l, r.published = 1) ∧
      l.Pairwise (fun a b => b.created_at ≤ a.created_at) ∧
      (∀ c, (some "news" : Option String) = some c → c ≠ "" → c ≠ "all" → ∀ r ∈ l, r.category = c) ∧
      (∀ n, (some 1 : Option Nat) = some n → l.length ≤ n) ∧
      listNews { rows := [unpubArticle, ⟨2, "p", "c", "news", none, none, 1, 5, 5⟩], nextId := 3 }
          (some "all") (some 1) none =
        listNews { rows := [unpubArticle, ⟨2, "p", "c", "news", none, none, 1, 5, 5⟩], nextId := 3 }
          none (some 1) none :=
  list_news_no_published_param
    { rows := [unpubArticle, ⟨2, "p", "c", "news", none, none, 1, 5, 5⟩], nextId := 3 }
    (some "news") (some 1)

/-- C7: a well-formed submission whose email has no existing application
succeeds with 201 and inserts one row; a second well-formed submission
with the same email fails Conflict (400) and leaves the store exactly as
the first call left it. -/
theorem membership_duplicate_email (db : MemDb) (b1 b2 : MembershipBody)
    (n1 n2 : Nat)
    (h1a : b1.full_name ≠ "") (h1b : b1.email ≠ "") (h1c : b1.phone ≠ "")
    (h1d : b1.university ≠ "") (h1e : b1.major ≠ "") (h1f : b1.academic_level ≠ "")
    (h1g : b1.wilaya ≠ "")
    (hmail : emailOk b1.email = true)
    (hnew : db.rows.find? (fun r => r.email == b1.email) = none)
    (h2a : b2.full_name ≠ "") (h2b : b2.phone ≠ "") (h2c : b2.university ≠ "")
    (h2d : b2.major ≠ "") (h2e : b2.academic_level ≠ "") (h2f : b2.wilaya ≠ "")
    (hsame : b2.email = b1.email) :
    submitMembership db b1 n1 =
      (MemResult.submittedOk,
       { rows := db.rows ++ [membershipRowOf db b1 n1], nextId := db.nextId + 1 }) ∧
    MemResult.submittedOk.status = 201 ∧
    submitMembership { rows := db.rows ++ [membershipRowOf db b1 n1], nextId := db.nextId + 1 }
        b2 n2 =
      (MemResult.conflict,
       { rows := db.rows ++ [membershipRowOf db b1 n1], nextId := db.nextId + 1 }) ∧
    MemResult.conflict.status = 400 := by
  have e1a := beq_eq_false_iff_ne.mpr h1a
  have e1b := beq_eq_false_iff_ne.mpr h1b
  have e1c := beq_eq_false_iff_ne.mpr h1c
  have e1d := beq_eq_false_iff_ne.mpr h1d
  have e1e := beq_eq_false_iff_ne.mpr h1e
  have e1f := beq_eq_false_iff_ne.mpr h1f
  have e1g := beq_eq_false_iff_ne.mpr h1g
  have e2a := beq_eq_false_iff_ne.mpr h2a
  have e2b := beq_eq_false_iff_ne.mpr h2b
  have e2c := beq_eq_false_iff_ne.mpr h2c
  have e2d := beq_eq_false_iff_ne.mpr h2d
  have e2e := beq_eq_false_iff_ne.mpr h2e
  have e2f := beq_eq_false_iff_ne.mpr h2f
  have h2email : b2.email ≠ "" := by rw [hsame]; exact h1b
  have e2g := beq_eq_false_iff_ne.mpr h2email
  have hmail2 : emailOk b2.email = true := by rw [hsame]; exact hmail
  have hfind2 : (db.rows ++ [membershipRowOf db b1 n1]).find?
      (fun r => r.email == b2.email) = some (membershipRowOf db b1 n1) := by
    apply find?_append_single_of_none
    · rw [hsame]
      exact hnew
    · simp [membershipRowOf, hsame]
  refine ⟨by simp [submitMembership, e1a, e1b, e1c, e1d, e1e, e1f, e1g, hmail, hnew],
    rfl, ?_, rfl⟩
  simp [submitMembership, e2a, e2b, e2c, e2d, e2e, e2f, e2g, hmail2, hfind2]

/-- Witness for C7: two submissions of `memBody1`-style applications with
the same email on an empty store. -/
theorem membership_duplicate_email_witness :
    emailOk memBody1.email = true ∧
    memDb0.rows.find? (fun r => r.email == memBody1.email) = none ∧
    memBody2.email = memBody1.email ∧
    (submitMembership memDb0 memBody1 5 =
      (MemResult.submittedOk,
       { rows := memDb0.rows ++ [membershipRowOf memDb0 memBody1 5],
         nextId := memDb0.nextId + 1 }) ∧
     MemResult.submittedOk.status = 201 ∧
     submitMembership
       { rows := memDb0.rows ++ [membershipRowOf memDb0 memBody1 5],
         nextId := memDb0.nextId + 1 } memBody2 6 =
       (MemResult.conflict,
        { rows := memDb0.rows ++ [membershipRowOf memDb0 memBody1 5],
          nextId := memDb0.nextId + 1 }) ∧
     MemResult.conflict.status = 400) :=
  ⟨by decide, by decide, by decide,
   membership_duplicate_email memDb0 memBody1 memBody2 5 6
     (by decide) (by decide) (by decide) (by decide) (by decide) (by decide) (by decide)
     (by decide) (by decide)
     (by decide) (by decide) (by decide) (by decide) (by decide) (by decide) (by decide)⟩

/-- C8 counterexample: a url passing the literal `/assets/uploads/` prefix
check but containing `..` segments deletes a file whose resolved path lies
outside the upload root. -/
theorem delete_upload_escapes_root :
    startsWithStr "/assets/uploads/" "/assets/uploads/../../secret.txt" = true ∧
    deleteUpload true [["frontend", "secret.txt"]]
        (some "/assets/uploads/../../secret.txt") = (MediaResult.okMsg, []) ∧
    uploadRoot.isPrefixOf (resolvedPath "/assets/uploads/../../secret.txt") = false := by
  decide

/-- C8 (amended): an authenticated upload delete rejects any url not
literally prefixed by `/assets/uploads/` with InvalidInput, answers
NotFound when the resolved file is absent, and unlinks the resolved file
when present — the guard is a literal string-prefix check, not a check on
the resolved path. -/
theorem delete_upload_prefix_guard (fs : List (List String)) (u : String) :
    (startsWithStr "/assets/uploads/" u = false →
      deleteUpload true fs (some u) = (MediaResult.invalidInput, fs) ∧
      MediaResult.invalidInput.status = 400) ∧
    (startsWithStr "/assets/uploads/" u = true → resolvedPath u ∉ fs →
      deleteUpload true fs (some u) = (MediaResult.notFound, fs) ∧
      MediaResult.notFound.status = 404) ∧
    (startsWithStr "/assets/uploads/" u = true → resolvedPath u ∈ fs →
      deleteUpload true fs (some u) = (MediaResult.okMsg, fs.erase (resolvedPath u))) := by
  refine ⟨fun h => ⟨by simp [deleteUpload, h], rfl⟩,
    fun h hmem => ⟨by simp [deleteUpload, h, hmem], rfl⟩,
    fun h hmem => by simp [deleteUpload, h, hmem]⟩

/-- Witness for the amended C8 on a two-file disk. -/
theorem delete_upload_prefix_guard_witness :
    (startsWithStr "/assets/uploads/" "/foo.png" = false ∧
     deleteUpload true fs1 (some "/foo.png") = (MediaResult.invalidInput, fs1) ∧
     MediaResult.invalidInput.status = 400) ∧
    (startsWithStr "/assets/uploads/" "/assets/uploads/hero/b.png" = true ∧
     resolvedPath "/assets/uploads/hero/b.png" ∉ fs1 ∧
     deleteUpload true fs1 (some "/assets/uploads/hero/b.png") =
       (MediaResult.notFound, fs1) ∧
     MediaResult.notFound.status = 404) ∧
    (startsWithStr "/assets/uploads/" "/assets/uploads/hero/a.png" = true ∧
     resolvedPath "/assets/uploads/hero/a.png" ∈ fs1 ∧
     deleteUpload true fs1 (some "/assets/uploads/hero/a.png") =
       (MediaResult.okMsg, fs1.erase (resolvedPath "/assets/uploads/hero/a.png"))) :=
  ⟨⟨by decide, (delete_upload_prefix_guard fs1 "/foo.png").1 (by decide)⟩,
   ⟨by decide, by decide,
    (delete_upload_prefix_guard fs1 "/assets/uploads/hero/b.png").2.1 (by decide) (by decide)⟩,
   ⟨by decide, by decide,
    (delete_upload_prefix_guard fs1 "/assets/uploads/hero/a.png").2.2 (by decide) (by decide)⟩⟩

/-- C9: authenticated update and delete of a hero slide or a specialty
perform no existence check — on an absent id both answer success (200)
and leave the store (rows and disk) unchanged — whereas the news,
messages, memberships and page-section deletes answer NotFound on an
absent key. -/
theorem media_absent_id_silent_success (db : MediaDb) (idn : Nat)
    (hb : HeroUpdateBody) (sb : SpecialtyUpdateBody) (now : Nat)
    (hh : ∀ r ∈ db.hero, r.id ≠ idn) (hs : ∀ r ∈ db.specs, r.id ≠ idn) :
    updateHeroSlide true db idn hb = (MediaResult.okMsg, db) ∧
    deleteHeroSlide true db idn = (MediaResult.okMsg, db) ∧
    updateSpecialty true db idn sb now = (MediaResult.okMsg, db) ∧
    deleteSpecialty true db idn = (MediaResult.okMsg, db) ∧
    MediaResult.okMsg.status = 200 ∧
    (∀ ndb : NewsDb, (∀ r ∈ ndb.rows, r.id ≠ idn) →
      deleteNews true ndb idn = (NewsResult.notFound, ndb)) ∧
    (∀ mdb : MessagesDb, (∀ r ∈ mdb.rows, r.id ≠ idn) →
      deleteMessage true mdb idn = (MsgResult.notFound, mdb)) ∧
    (∀ adb : MemDb, (∀ r ∈ adb.rows, r.id ≠ idn) →
      deleteMembership true adb idn = (MemResult.notFound, adb)) ∧
    (∀ (pdb : PagesDb) p s, findSection pdb.rows p s = none →
      deleteSection true pdb p s = (PagesResult.notFound, pdb)) := by
  have hhfind : db.hero.find? (fun r => r.id == idn) = none :=
    List.find?_eq_none.mpr (fun x hx => by simp [hh x hx])
  have hhfilt : db.hero.filter (fun r => !(r.id == idn)) = db.hero :=
    List.filter_eq_self.mpr (fun a ha => by simp [hh a ha])
  have hsfind : db.specs.find? (fun r => r.id == idn) = none :=
    List.find?_eq_none.mpr (fun x hx => by simp [hs x hx])
  have hsfilt : db.specs.filter (fun r => !(r.id == idn)) = db.specs :=
    List.filter_eq_self.mpr (fun a ha => by simp [hs a ha])
  refine ⟨?_, ?_, ?_, ?_, rfl, ?_, ?_, ?_, ?_⟩
  · simp only [updateHeroSlide, Bool.not_true, Bool.false_eq_true, if_false]
    rw [map_id_of_eq]
    intro a ha
    simp [beq_eq_false_iff_ne.mpr (hh a ha)]
  · simp [deleteHeroSlide, hhfind, hhfilt]
  · simp only [updateSpecialty, Bool.not_true, Bool.false_eq_true, if_false]
    rw [map_id_of_eq]
    intro a ha
    simp [beq_eq_false_iff_ne.mpr (hs a ha)]
  · simp [deleteSpecialty, hsfind, hsfilt]
  · intro ndb hn
    have hfind : ndb.rows.find? (fun r => r.id == idn) = none :=
      List.find?_eq_none.mpr (fun x hx => by simp [hn x hx])
    simp [deleteNews, hfind]
  · intro mdb hm
    have hfind : mdb.rows.find? (fun r => r.id == idn) = none :=
      List.find?_eq_none.mpr (fun x hx => by simp [hm x hx])
    simp [deleteMessage, hfind]
  · intro adb ha
    have hfind : adb.rows.find? (fun r => r.id == idn) = none :=
      List.find?_eq_none.mpr (fun x hx => by simp [ha x hx])
    simp [deleteMembership, hfind]
  · intro pdb p s h
    simp [deleteSection, h]

/-- Witness for C9 at empty stores and id 1. -/
theorem media_absent_id_silent_success_witness :
    (∀ r ∈ mediaDb0.hero, r.id ≠ 1) ∧ (∀ r ∈ mediaDb0.specs, r.id ≠ 1) ∧
    (updateHeroSlide true mediaDb0 1 heroBody1 = (MediaResult.okMsg, mediaDb0) ∧
     deleteHeroSlide true mediaDb0 1 = (MediaResult.okMsg, mediaDb0) ∧
     updateSpecialty true mediaDb0 1 specBody1 4 = (MediaResult.okMsg, mediaDb0) ∧
     deleteSpecialty true mediaDb0 1 = (MediaResult.okMsg, mediaDb0) ∧
     MediaResult.okMsg.status = 200 ∧
     (∀ ndb : NewsDb, (∀ r ∈ ndb.rows, r.id ≠ 1) →
       deleteNews true ndb 1 = (NewsResult.notFound, ndb)) ∧
     (∀ mdb : MessagesDb, (∀ r ∈ mdb.rows, r.id ≠ 1) →
       deleteMessage true mdb 1 = (MsgResult.notFound, mdb)) ∧
     (∀ adb : MemDb, (∀ r ∈ adb.rows, r.id ≠ 1) →
       deleteMembership true adb 1 = (MemResult.notFound, adb)) ∧
     (∀ (pdb : PagesDb) p s, findSection pdb.rows p s = none →
       deleteSection true pdb p s = (PagesResult.notFound, pdb))) :=
  ⟨by decide, by decide,
   media_absent_id_silent_success mediaDb0 1 heroBody1 specBody1 4 (by decide) (by decide)⟩

/-- C10: in every state of the `memberships` table reachable through its
operations, every application's status is `pending`, `approved` or
`rejected`, so the stats endpoint's total always equals the sum of its
three per-status counts. -/
theorem memberships_status_partition (db : MemDb) (h : MemReach db) :
    statusInv db ∧
    ∀ t p a r, membershipStats true db = MemResult.statsOk t p a r → t = p + a + r := by
  have hinv := statusInv_of_reach db h
  refine ⟨hinv, ?_⟩
  intro t p a r hstats
  have heq : membershipStats true db = MemResult.statsOk db.rows.length
      (db.rows.filter (fun r => r.status == "pending")).length
      (db.rows.filter (fun r => r.status == "approved")).length
      (db.rows.filter (fun r => r.status == "rejected")).length := rfl
  rw [heq] at hstats
  injection hstats with ht hp ha hr
  subst ht
  subst hp
  subst ha
  subst hr
  exact length_eq_three_status_counts db.rows hinv

/-- Witness for C10 at the table reached by one successful submit. -/
theorem memberships_status_partition_witness :
    statusInv memDb1 ∧
    ∀ t p a r, membershipStats true memDb1 = MemResult.statsOk t p a r →
      t = p + a + r :=
  memberships_status_partition memDb1
    (MemReach.submit memDb0 memBody1 5 MemReach.init)
